import Mathlib

/-!
Shallow embedding of `src/handshake.py`, a toy Diffie-Hellman handshake.

Python integers are embedded as `Int`.  Python exceptions are embedded as
`Except HsError`: the spec's taxonomy names the handshake's failed
assertions `ProtocolError` and invalid numeric input to modular
exponentiation (Python's `ValueError` from the builtin `pow`) `DomainError`,
so the error type carries those two labels.  The `print` tracing of the
source is a side effect outside the functional contract and is not modeled.
-/

/-- Errors of the embedded program.  `protocolError` stands for the
AssertionError raised by the handshake's `assert` statements (the spec's
name for it); `domainError` stands for the ValueError raised by the builtin
`pow`. -/
inductive HsError where
  | protocolError (msg : String)
  | domainError (msg : String)
deriving DecidableEq, Repr

/-- DH public parameters: prime `p` and generator `g` (class `DHParams`).
Dataclass equality compares the two fields. -/
structure DHParams where
  p : Int
  g : Int
deriving DecidableEq, Repr

/-- The module constant `DH_PARAMS = DHParams(p=23, g=5)`. -/
def DH_PARAMS : DHParams := { p := 23, g := 5 }

/-- Message `ClientHello(requested_group="DH_23_5")`. -/
structure ClientHello where
  requested_group : String := "DH_23_5"
deriving DecidableEq, Repr

/-- Message `ServerHello(selected_group, params)`. -/
structure ServerHello where
  selected_group : String
  params : DHParams
deriving DecidableEq, Repr

/-- Message `ClientKeyShare(A)`: the client public value `A = g^a mod p`. -/
structure ClientKeyShare where
  A : Int
deriving DecidableEq, Repr

/-- Message `ServerKeyShare(B)`: the server public value `B = g^b mod p`. -/
structure ServerKeyShare where
  B : Int
deriving DecidableEq, Repr

/-- Message `Finished(ok)`: the handshake success flag. -/
structure Finished where
  ok : Bool
deriving DecidableEq, Repr

/-- Smallest candidate in `[0, |m|)` that is a multiplicative inverse of
`b` modulo `m`, or `0` when none exists.  Used only to model the value the
builtin `pow` returns for a negative exponent once invertibility (gcd = 1)
has been established. -/
def modInvSearch (b m : Int) : Int :=
  match (List.range m.natAbs).find? (fun k => (b * (k : Int)).fmod m == (1 : Int).fmod m) with
  | some k => (k : Int)
  | none => 0

/-- Embedding of Python's builtin three-argument `pow(base, exp, m)`:
fails with ValueError when `m = 0`; for a negative exponent it requires the
base to be invertible modulo `m` (gcd(base, m) = 1, else ValueError) and
exponentiates the inverse; otherwise it returns `base ^ exp mod m`, where
`mod` takes the sign of the modulus (Python `%`, i.e. `Int.fmod`). -/
def pyPow (base exp m : Int) : Except HsError Int :=
  if m = 0 then
    .error (.domainError "pow third argument cannot be 0")
  else if exp < 0 then
    if Int.gcd base m ≠ 1 then
      .error (.domainError "base is not invertible for the given modulus")
    else
      .ok (((modInvSearch base m) ^ exp.natAbs).fmod m)
  else
    .ok ((base ^ exp.natAbs).fmod m)

/-- `dh_public(g, a, p) = pow(g, a, p)`: a DH public value. -/
def dh_public (g a p : Int) : Except HsError Int := pyPow g a p

/-- `dh_shared(pub_other, a, p) = pow(pub_other, a, p)`: the shared secret
as derived by the holder of exponent `a`. -/
def dh_shared (pub_other a p : Int) : Except HsError Int := pyPow pub_other a p

/-- Instance state of class `DHClient`: the group parameters and the three
fields that start as `None`. -/
structure DHClient where
  params : DHParams
  a : Option Int
  A : Option Int
  shared : Option Int
deriving DecidableEq, Repr

/-- `DHClient.__init__(params)`: all key material starts unset. -/
def DHClient.init (params : DHParams) : DHClient :=
  { params := params, a := none, A := none, shared := none }

/-- `DHClient.start()`: returns `ClientHello()` and does not touch the
instance state. -/
def DHClient.start (s : DHClient) : DHClient × ClientHello :=
  (s, {})

/-- Generalization of `DHClient.on_server_hello` in which the hardcoded
private exponent (`self.a = 6` in the source) is a parameter, as the spec
describes under the exponent-override design note.  The body otherwise
follows the source: assert that the echoed params equal the local ones,
set `a`, compute `A = dh_public(g, a, p)`, store both, return
`ClientKeyShare(A)`. -/
def DHClient.on_server_hello_with (s : DHClient) (sh : ServerHello) (a : Int) :
    Except HsError (DHClient × ClientKeyShare) :=
  if sh.params = s.params then
    match dh_public s.params.g a s.params.p with
    | .error e => .error e
    | .ok A => .ok ({ s with a := some a, A := some A }, { A := A })
  else
    .error (.protocolError "group mismatch")

/-- `DHClient.on_server_hello(sh)`: the source with its hardcoded
`self.a = 6`. -/
def DHClient.on_server_hello (s : DHClient) (sh : ServerHello) :
    Except HsError (DHClient × ClientKeyShare) :=
  DHClient.on_server_hello_with s sh 6

/-- `DHClient.on_server_keyshare(sk)`: asserts `self.a is not None`,
computes `shared = dh_shared(B, a, p)`, stores it, returns
`Finished(ok=True)`. -/
def DHClient.on_server_keyshare (s : DHClient) (sk : ServerKeyShare) :
    Except HsError (DHClient × Finished) :=
  match s.a with
  | none => .error (.protocolError "assertion failed: private exponent is not set")
  | some a =>
    match dh_shared sk.B a s.params.p with
    | .error e => .error e
    | .ok k => .ok ({ s with shared := some k }, { ok := true })

/-- Instance state of class `DHServer`. -/
structure DHServer where
  params : DHParams
  b : Option Int
  B : Option Int
  shared : Option Int
deriving DecidableEq, Repr

/-- `DHServer.__init__(params)`: all key material starts unset. -/
def DHServer.init (params : DHParams) : DHServer :=
  { params := params, b := none, B := none, shared := none }

/-- `DHServer.on_client_hello(ch)`: returns
`ServerHello(selected_group="DH_23_5", params=self.params)` and does not
touch the instance state. -/
def DHServer.on_client_hello (s : DHServer) (ch : ClientHello) :
    DHServer × ServerHello :=
  (s, { selected_group := "DH_23_5", params := s.params })

/-- Generalization of `DHServer.on_client_keyshare` in which the hardcoded
private exponent (`self.b = 15` in the source) is a parameter.  The body
otherwise follows the source: set `b`, compute `B = dh_public(g, b, p)` and
`shared = dh_shared(A, b, p)`, store all, return
`(ServerKeyShare(B), Finished(ok=True))`. -/
def DHServer.on_client_keyshare_with (s : DHServer) (ck : ClientKeyShare) (b : Int) :
    Except HsError (DHServer × ServerKeyShare × Finished) :=
  match dh_public s.params.g b s.params.p with
  | .error e => .error e
  | .ok B =>
    match dh_shared ck.A b s.params.p with
    | .error e => .error e
    | .ok k =>
      .ok ({ s with b := some b, B := some B, shared := some k }, { B := B }, { ok := true })

/-- `DHServer.on_client_keyshare(ck)`: the source with its hardcoded
`self.b = 15`. -/
def DHServer.on_client_keyshare (s : DHServer) (ck : ClientKeyShare) :
    Except HsError (DHServer × ServerKeyShare × Finished) :=
  DHServer.on_client_keyshare_with s ck 15

/-- Final observable outcome of `main()`: the two final role states, the
two `Finished` messages, and the printed comparison
`client.shared == server.shared`. -/
structure HandshakeResult where
  client : DHClient
  server : DHServer
  fin_cli : Finished
  fin_srv : Finished
  agreed : Bool
deriving DecidableEq, Repr

/-- The four-step exchange of `main()` with the two hardcoded private
exponents generalized to parameters `a` and `b` (the source's `main` is
this run at `params = DH_PARAMS`, `a = 6`, `b = 15`; see
`runHandshake_eq_with`). -/
def runHandshakeWith (params : DHParams) (a b : Int) : Except HsError HandshakeResult :=
  let client0 := DHClient.init params
  let server0 := DHServer.init params
  let (client1, ch) := client0.start
  let (server1, sh) := server0.on_client_hello ch
  match client1.on_server_hello_with sh a with
  | .error e => .error e
  | .ok (client2, ck) =>
    match server1.on_client_keyshare_with ck b with
    | .error e => .error e
    | .ok (server2, sk, fin_srv) =>
      match client2.on_server_keyshare sk with
      | .error e => .error e
      | .ok (client3, fin_cli) =>
        .ok { client := client3, server := server2, fin_cli := fin_cli,
              fin_srv := fin_srv,
              agreed := decide (client3.shared = server2.shared) }

/-- `main()`: the concrete four-step exchange on `DH_PARAMS` with the
source's hardcoded exponents, reporting the final comparison. -/
def runHandshake : Except HsError HandshakeResult :=
  let client0 := DHClient.init DH_PARAMS
  let server0 := DHServer.init DH_PARAMS
  let (client1, ch) := client0.start
  let (server1, sh) := server0.on_client_hello ch
  match client1.on_server_hello sh with
  | .error e => .error e
  | .ok (client2, ck) =>
    match server1.on_client_keyshare ck with
    | .error e => .error e
    | .ok (server2, sk, fin_srv) =>
      match client2.on_server_keyshare sk with
      | .error e => .error e
      | .ok (client3, fin_cli) =>
        .ok { client := client3, server := server2, fin_cli := fin_cli,
              fin_srv := fin_srv,
              agreed := decide (client3.shared = server2.shared) }

/-- The outcome of the reference run: both roles end with shared secret 2,
the client public value is 8, the server public value is 19. -/
def refRunResult : HandshakeResult :=
  { client := { params := DH_PARAMS, a := some 6, A := some 8, shared := some 2 },
    server := { params := DH_PARAMS, b := some 15, B := some 19, shared := some 2 },
    fin_cli := { ok := true }, fin_srv := { ok := true }, agreed := true }

/-- The concrete run is the generalized run at the source's constants. -/
theorem runHandshake_eq_with : runHandshake = runHandshakeWith DH_PARAMS 6 15 := rfl

/-- For a nonnegative exponent and nonzero modulus, the embedded `pow`
always succeeds and returns `(base ^ exp) fmod m`. -/
theorem pyPow_ok (b e m : Int) (he : 0 ≤ e) (hm : m ≠ 0) :
    pyPow b e m = .ok ((b ^ e.natAbs).fmod m) := by
  simp [pyPow, hm, not_lt.mpr he]

/-- For a nonnegative exponent and positive modulus, the embedded `pow`
returns `(base ^ exp) % m` with the euclidean (nonnegative) remainder. -/
theorem pyPow_ok_pos (b e m : Int) (he : 0 ≤ e) (hm : 0 < m) :
    pyPow b e m = .ok ((b ^ e.natAbs) % m) := by
  rw [pyPow_ok b e m he (ne_of_gt hm), Int.fmod_eq_emod _ (le_of_lt hm)]

/-- Symbolic evaluation of the generalized run: for a positive modulus and
nonnegative exponents the whole handshake succeeds, and every stored field
is spelled out. -/
theorem runHandshakeWith_ok (p g a b : Int) (hp : 0 < p) (ha : 0 ≤ a) (hb : 0 ≤ b) :
    runHandshakeWith { p := p, g := g } a b = .ok
      { client := { params := { p := p, g := g }, a := some a,
                    A := some (g ^ a.natAbs % p),
                    shared := some ((g ^ b.natAbs % p) ^ a.natAbs % p) },
        server := { params := { p := p, g := g }, b := some b,
                    B := some (g ^ b.natAbs % p),
                    shared := some ((g ^ a.natAbs % p) ^ b.natAbs % p) },
        fin_cli := { ok := true }, fin_srv := { ok := true },
        agreed := decide ((some ((g ^ b.natAbs % p) ^ a.natAbs % p) : Option Int) =
                          some ((g ^ a.natAbs % p) ^ b.natAbs % p)) } := by
  simp [runHandshakeWith, DHClient.init, DHServer.init, DHClient.start,
    DHServer.on_client_hello, DHClient.on_server_hello_with,
    DHServer.on_client_keyshare_with, DHClient.on_server_keyshare,
    dh_public, dh_shared, pyPow_ok_pos, ha, hb, hp]

/-- C1: for every modulus p > 0, generator g with 1 < g < p, and private
exponents a, b in [1, p-2], running the full four-step handshake with both
roles holding the same group parameters succeeds and leaves the client's
stored shared secret equal to the server's stored shared secret, with the
agreement flag true. -/
theorem dh_handshake_agreement (p g a b : Int) (hp : 0 < p) (hg1 : 1 < g) (hgp : g < p)
    (ha1 : 1 ≤ a) (ha2 : a ≤ p - 2) (hb1 : 1 ≤ b) (hb2 : b ≤ p - 2) :
    ∃ r : HandshakeResult, runHandshakeWith { p := p, g := g } a b = .ok r ∧
      r.client.shared = r.server.shared ∧ r.agreed = true := by
  have ha : 0 ≤ a := by omega
  have hb : 0 ≤ b := by omega
  have h1 : (g ^ b.natAbs % p) ^ a.natAbs % p = (g ^ b.natAbs) ^ a.natAbs % p :=
    ((Int.mod_modEq (g ^ b.natAbs) p).pow a.natAbs).eq
  have h2 : (g ^ a.natAbs % p) ^ b.natAbs % p = (g ^ a.natAbs) ^ b.natAbs % p :=
    ((Int.mod_modEq (g ^ a.natAbs) p).pow b.natAbs).eq
  have key : (g ^ b.natAbs % p) ^ a.natAbs % p = (g ^ a.natAbs % p) ^ b.natAbs % p := by
    rw [h1, h2, ← pow_mul, ← pow_mul, Nat.mul_comm]
  refine ⟨_, runHandshakeWith_ok p g a b hp ha hb, ?_, ?_⟩
  · simpa using key
  · simp [key]

/-- Witness for C1 at the reference parameters p = 23, g = 5, a = 6,
b = 15. -/
theorem dh_handshake_agreement_witness :
    ∃ r : HandshakeResult, runHandshakeWith { p := 23, g := 5 } 6 15 = .ok r ∧
      r.client.shared = r.server.shared ∧ r.agreed = true :=
  dh_handshake_agreement 23 5 6 15 (by decide) (by decide) (by decide)
    (by decide) (by decide) (by decide) (by decide)

/-- C2: with modulus 23, generator 5, client exponent 6, server exponent
15, the full handshake produces client public value A = 8, server public
value B = 19, shared secret 2 on both sides, agreement true, both Finished
flags true; and modPow gives pow(5,6,23) = 8, pow(5,15,23) = 19,
pow(19,6,23) = pow(8,15,23) = 2. -/
theorem reference_constants_run :
    runHandshake = .ok
      { client := { params := DH_PARAMS, a := some 6, A := some 8, shared := some 2 },
        server := { params := DH_PARAMS, b := some 15, B := some 19, shared := some 2 },
        fin_cli := { ok := true }, fin_srv := { ok := true }, agreed := true } ∧
    pyPow 5 6 23 = .ok 8 ∧ pyPow 5 15 23 = .ok 19 ∧
    pyPow 19 6 23 = .ok 2 ∧ pyPow 8 15 23 = .ok 2 :=
  ⟨rfl, rfl, rfl, rfl, rfl⟩

/-- Counterexample to C3: a freshly constructed client accepts a
ServerHello without start() ever having been called (returning the key
share, not a ProtocolError), and a freshly constructed server accepts a
ClientKeyShare without on_client_hello ever having been called. -/
theorem state_order_not_enforced_cex :
    (DHClient.init DH_PARAMS).on_server_hello
        { selected_group := "DH_23_5", params := DH_PARAMS } =
      .ok ({ params := DH_PARAMS, a := some 6, A := some 8, shared := none }, { A := 8 }) ∧
    (DHServer.init DH_PARAMS).on_client_keyshare { A := 8 } =
      .ok ({ params := DH_PARAMS, b := some 15, B := some 19, shared := some 2 },
        { B := 19 }, { ok := true }) :=
  ⟨rfl, rfl⟩

/-- C3 amended: the code performs no state-order check.  On a fresh client,
on_server_hello succeeds whenever the echoed group parameters match the
local ones, and on a fresh server, on_client_keyshare succeeds whenever the
group modulus is nonzero; neither call fails with a ProtocolError for being
out of order. -/
theorem no_state_order_check (params : DHParams) (sh : ServerHello) (ck : ClientKeyShare)
    (hmatch : sh.params = params) (hp : params.p ≠ 0) :
    (∃ out, (DHClient.init params).on_server_hello sh = .ok out) ∧
    (∃ out, (DHServer.init params).on_client_keyshare ck = .ok out) := by
  constructor
  · have hc : (DHClient.init params).on_server_hello sh =
        .ok ({ params := params, a := some 6,
               A := some ((params.g ^ (6 : Int).natAbs).fmod params.p), shared := none },
             { A := (params.g ^ (6 : Int).natAbs).fmod params.p }) := by
      simp [DHClient.on_server_hello, DHClient.on_server_hello_with,
        DHClient.init, dh_public, hmatch,
        pyPow_ok params.g 6 params.p (by norm_num) hp]
    exact ⟨_, hc⟩
  · have hs : (DHServer.init params).on_client_keyshare ck =
        .ok ({ params := params, b := some 15,
               B := some ((params.g ^ (15 : Int).natAbs).fmod params.p),
               shared := some ((ck.A ^ (15 : Int).natAbs).fmod params.p) },
             { B := (params.g ^ (15 : Int).natAbs).fmod params.p }, { ok := true }) := by
      simp [DHServer.on_client_keyshare, DHServer.on_client_keyshare_with,
        DHServer.init, dh_public, dh_shared,
        pyPow_ok params.g 15 params.p (by norm_num) hp,
        pyPow_ok ck.A 15 params.p (by norm_num) hp]
    exact ⟨_, hs⟩

/-- Witness for the amended C3 at the reference parameters. -/
theorem no_state_order_check_witness :
    ({ selected_group := "DH_23_5", params := DH_PARAMS } : ServerHello).params = DH_PARAMS ∧
    DH_PARAMS.p ≠ 0 ∧
    ((∃ out, (DHClient.init DH_PARAMS).on_server_hello
        { selected_group := "DH_23_5", params := DH_PARAMS } = .ok out) ∧
     (∃ out, (DHServer.init DH_PARAMS).on_client_keyshare { A := 8 } = .ok out)) :=
  ⟨rfl, by decide,
    no_state_order_check DH_PARAMS { selected_group := "DH_23_5", params := DH_PARAMS }
      { A := 8 } rfl (by decide)⟩

/-- C4: whenever the ServerHello's group parameters differ from the ones
the client holds, on_server_hello fails with the group-mismatch
ProtocolError (the assert precedes every assignment in the source, so no
private exponent, public value or shared secret is produced: no successor
state is ever returned). -/
theorem group_mismatch_rejected (s : DHClient) (sh : ServerHello)
    (hne : sh.params ≠ s.params) :
    s.on_server_hello sh = .error (.protocolError "group mismatch") ∧
    ∀ out, s.on_server_hello sh ≠ .ok out := by
  have h : s.on_server_hello sh = .error (.protocolError "group mismatch") := by
    simp [DHClient.on_server_hello, DHClient.on_server_hello_with, hne]
  refine ⟨h, fun out hok => ?_⟩
  rw [h] at hok
  exact absurd hok (by simp)

/-- Witness for C4: a client configured with p = 23 rejects a ServerHello
echoing p = 24. -/
theorem group_mismatch_rejected_witness :
    ({ selected_group := "DH_23_5", params := { p := 24, g := 5 } } : ServerHello).params ≠
      (DHClient.init DH_PARAMS).params ∧
    ((DHClient.init DH_PARAMS).on_server_hello
        { selected_group := "DH_23_5", params := { p := 24, g := 5 } } =
      .error (.protocolError "group mismatch") ∧
     ∀ out, (DHClient.init DH_PARAMS).on_server_hello
        { selected_group := "DH_23_5", params := { p := 24, g := 5 } } ≠ .ok out) :=
  ⟨by decide,
    group_mismatch_rejected (DHClient.init DH_PARAMS)
      { selected_group := "DH_23_5", params := { p := 24, g := 5 } } (by decide)⟩

/-- C5: for nonnegative base and exponent and a positive modulus (any
positive modulus, including 2), the embedded pow succeeds, returns
base ^ exponent mod modulus, and the result lies in [0, modulus). -/
theorem modPow_nonneg_spec (b e m : Int) (hb : 0 ≤ b) (he : 0 ≤ e) (hm : 0 < m) :
    pyPow b e m = .ok (b ^ e.natAbs % m) ∧
    0 ≤ b ^ e.natAbs % m ∧ b ^ e.natAbs % m < m :=
  ⟨pyPow_ok_pos b e m he hm, Int.emod_nonneg _ (ne_of_gt hm), Int.emod_lt_of_pos _ hm⟩

/-- Witness for C5 at the smallest nontrivial modulus 2. -/
theorem modPow_nonneg_spec_witness :
    (0 : Int) ≤ 3 ∧ (0 : Int) ≤ 4 ∧ (0 : Int) < 2 ∧
    (pyPow 3 4 2 = .ok ((3 : Int) ^ (4 : Int).natAbs % 2) ∧
     0 ≤ (3 : Int) ^ (4 : Int).natAbs % 2 ∧ (3 : Int) ^ (4 : Int).natAbs % 2 < 2) :=
  ⟨by decide, by decide, by decide, modPow_nonneg_spec 3 4 2 (by decide) (by decide) (by decide)⟩

/-- Counterexample to C6: a negative modulus does not fail (pow(2, 3, -5)
returns -2), a negative base does not fail (pow(-2, 3, 23) returns 15), and
a negative exponent with invertible base does not fail (pow(2, -1, 23)
returns the inverse 12). -/
theorem modPow_domain_cex :
    pyPow 2 3 (-5) = .ok (-2) ∧ pyPow (-2) 3 23 = .ok 15 ∧ pyPow 2 (-1) 23 = .ok 12 :=
  ⟨rfl, rfl, rfl⟩

/-- C6 amended: the embedded pow fails with a DomainError exactly when the
modulus is 0, or when the exponent is negative and the base is not coprime
to (hence not invertible modulo) the modulus; negative modulus and negative
base are accepted. -/
theorem modPow_error_iff (b e m : Int) :
    (∃ msg, pyPow b e m = .error (.domainError msg)) ↔
      (m = 0 ∨ (e < 0 ∧ Int.gcd b m ≠ 1)) := by
  by_cases hm : m = 0
  · simp [pyPow, hm]
  · by_cases he : e < 0
    · by_cases hg : Int.gcd b m = 1
      · simp [pyPow, hm, he, hg]
      · simp [pyPow, hm, he, hg]
    · simp [pyPow, hm, he]

/-- C7: a client that has reached the key-share-sent state (that is, whose
on_server_hello succeeded) accepts any ServerKeyShare whatsoever — any
integer public value, with no validation against the group — and returns
Finished with the success flag true; and a server with nonzero modulus
likewise always returns Finished with the success flag true from
on_client_keyshare, for any ClientKeyShare. -/
theorem finished_success_unconditional (s0 s : DHClient) (sh : ServerHello)
    (ck0 : ClientKeyShare) (sv : DHServer) (sk : ServerKeyShare) (ck : ClientKeyShare)
    (hclient : s0.on_server_hello sh = .ok (s, ck0)) (hp : sv.params.p ≠ 0) :
    (∃ s2, s.on_server_keyshare sk = .ok (s2, { ok := true })) ∧
    (∃ s2 sk2, sv.on_client_keyshare ck = .ok (s2, sk2, { ok := true })) := by
  constructor
  · by_cases hmatch : sh.params = s0.params
    · cases hA : pyPow s0.params.g 6 s0.params.p with
      | error e =>
        rw [DHClient.on_server_hello, DHClient.on_server_hello_with, if_pos hmatch] at hclient
        rw [dh_public, hA] at hclient
        exact absurd hclient (by simp)
      | ok A =>
        have hp0 : s0.params.p ≠ 0 := by
          intro h0
          simp [pyPow, h0] at hA
        rw [DHClient.on_server_hello, DHClient.on_server_hello_with, if_pos hmatch] at hclient
        rw [dh_public, hA] at hclient
        have hs : s = { s0 with a := some 6, A := some A } := by
          have := (by simpa using hclient : ({ s0 with a := some 6, A := some A },
            ({ A := A } : ClientKeyShare)) = (s, ck0))
          exact congrArg Prod.fst this.symm
        subst hs
        have hstep : DHClient.on_server_keyshare { s0 with a := some 6, A := some A } sk =
            .ok ({ s0 with
                    a := some 6,
                    A := some A,
                    shared := some ((sk.B ^ (6 : Int).natAbs).fmod s0.params.p) },
                 { ok := true }) := by
          simp [DHClient.on_server_keyshare, dh_shared,
            pyPow_ok sk.B 6 s0.params.p (by norm_num) hp0]
        exact ⟨_, hstep⟩
    · rw [DHClient.on_server_hello, DHClient.on_server_hello_with, if_neg hmatch] at hclient
      exact absurd hclient (by simp)
  · have hstep : sv.on_client_keyshare ck =
        .ok ({ sv with
                b := some 15,
                B := some ((sv.params.g ^ (15 : Int).natAbs).fmod sv.params.p),
                shared := some ((ck.A ^ (15 : Int).natAbs).fmod sv.params.p) },
             { B := (sv.params.g ^ (15 : Int).natAbs).fmod sv.params.p }, { ok := true }) := by
      simp [DHServer.on_client_keyshare, DHServer.on_client_keyshare_with,
        dh_public, dh_shared,
        pyPow_ok sv.params.g 15 sv.params.p (by norm_num) hp,
        pyPow_ok ck.A 15 sv.params.p (by norm_num) hp]
    exact ⟨_, _, hstep⟩

/-- Witness for C7: the reference client after its ServerHello step accepts
even the out-of-group public value -7 and still reports success, and the
reference server accepts A = 8. -/
theorem finished_success_unconditional_witness :
    (DHClient.init DH_PARAMS).on_server_hello
        { selected_group := "DH_23_5", params := DH_PARAMS } =
      .ok ({ params := DH_PARAMS, a := some 6, A := some 8, shared := none }, { A := 8 }) ∧
    (DHServer.init DH_PARAMS).params.p ≠ 0 ∧
    ((∃ s2, DHClient.on_server_keyshare
        { params := DH_PARAMS, a := some 6, A := some 8, shared := none } { B := -7 } =
        .ok (s2, { ok := true })) ∧
     (∃ s2 sk2, (DHServer.init DH_PARAMS).on_client_keyshare { A := 8 } =
        .ok (s2, sk2, { ok := true }))) :=
  ⟨rfl, by decide,
    finished_success_unconditional (DHClient.init DH_PARAMS)
      { params := DH_PARAMS, a := some 6, A := some 8, shared := none }
      { selected_group := "DH_23_5", params := DH_PARAMS } { A := 8 }
      (DHServer.init DH_PARAMS) { B := -7 } { A := 8 } rfl (by decide)⟩

/-- C8: the whole exchange is a deterministic function of the group
parameters and the two private exponents: two complete runs on equal
parameters and equal exponents produce equal results, in particular
identical public values and an identical shared secret on each side. -/
theorem handshake_deterministic (ps1 ps2 : DHParams) (a1 a2 b1 b2 : Int)
    (r1 r2 : HandshakeResult)
    (hps : ps1 = ps2) (ha : a1 = a2) (hb : b1 = b2)
    (h1 : runHandshakeWith ps1 a1 b1 = .ok r1)
    (h2 : runHandshakeWith ps2 a2 b2 = .ok r2) :
    r1 = r2 ∧ r1.client.A = r2.client.A ∧ r1.server.B = r2.server.B ∧
    r1.client.shared = r2.client.shared ∧ r1.server.shared = r2.server.shared := by
  subst hps; subst ha; subst hb
  rw [h1] at h2
  injection h2 with h
  subst h
  exact ⟨rfl, rfl, rfl, rfl, rfl⟩

/-- Witness for C8: two runs at the reference parameters. -/
theorem handshake_deterministic_witness :
    DH_PARAMS = DH_PARAMS ∧ (6 : Int) = 6 ∧ (15 : Int) = 15 ∧
    runHandshakeWith DH_PARAMS 6 15 = .ok refRunResult ∧
    (refRunResult = refRunResult ∧
     refRunResult.client.A = refRunResult.client.A ∧
     refRunResult.server.B = refRunResult.server.B ∧
     refRunResult.client.shared = refRunResult.client.shared ∧
     refRunResult.server.shared = refRunResult.server.shared) :=
  ⟨rfl, rfl, rfl, rfl,
    handshake_deterministic DH_PARAMS DH_PARAMS 6 6 15 15 refRunResult refRunResult
      rfl rfl rfl rfl rfl⟩

/-- C9: no handshake step mutates the group parameters: start and
on_client_hello return the state unchanged, and every successful
on_server_hello, on_server_keyshare and on_client_keyshare returns a
successor state whose params field equals the previous one (hence, along
any run, the value the role was constructed with). -/
theorem params_immutable
    (c cA cB : DHClient) (sv svA : DHServer)
    (sh : ServerHello) (sk : ServerKeyShare) (ch : ClientHello) (ck : ClientKeyShare)
    (ckA : ClientKeyShare) (fA : Finished) (skA : ServerKeyShare) (fS : Finished)
    (h1 : c.on_server_hello sh = .ok (cA, ckA))
    (h2 : c.on_server_keyshare sk = .ok (cB, fA))
    (h3 : sv.on_client_keyshare ck = .ok (svA, skA, fS)) :
    (c.start).1 = c ∧
    (sv.on_client_hello ch).1 = sv ∧
    cA.params = c.params ∧ cB.params = c.params ∧ svA.params = sv.params := by
  refine ⟨rfl, rfl, ?_, ?_, ?_⟩
  · by_cases hmatch : sh.params = c.params
    · cases hA : pyPow c.params.g 6 c.params.p with
      | error e =>
        simp only [DHClient.on_server_hello, DHClient.on_server_hello_with, dh_public,
          if_pos hmatch, hA] at h1
        exact Except.noConfusion h1
      | ok A =>
        simp only [DHClient.on_server_hello, DHClient.on_server_hello_with, dh_public,
          if_pos hmatch, hA] at h1
        injection h1 with h
        injection h with hcA hck
        rw [← hcA]
    · simp only [DHClient.on_server_hello, DHClient.on_server_hello_with,
        if_neg hmatch] at h1
      exact Except.noConfusion h1
  · cases ha0 : c.a with
    | none =>
      simp only [DHClient.on_server_keyshare, ha0] at h2
      exact Except.noConfusion h2
    | some a0 =>
      cases hK : pyPow sk.B a0 c.params.p with
      | error e =>
        simp only [DHClient.on_server_keyshare, ha0, dh_shared, hK] at h2
        exact Except.noConfusion h2
      | ok K =>
        simp only [DHClient.on_server_keyshare, ha0, dh_shared, hK] at h2
        injection h2 with h
        injection h with hcB hf
        rw [← hcB]
  · cases hB : pyPow sv.params.g 15 sv.params.p with
    | error e =>
      simp only [DHServer.on_client_keyshare, DHServer.on_client_keyshare_with,
        dh_public, hB] at h3
      exact Except.noConfusion h3
    | ok B =>
      cases hK : pyPow ck.A 15 sv.params.p with
      | error e =>
        simp only [DHServer.on_client_keyshare, DHServer.on_client_keyshare_with,
          dh_public, hB, dh_shared, hK] at h3
        exact Except.noConfusion h3
      | ok K =>
        simp only [DHServer.on_client_keyshare, DHServer.on_client_keyshare_with,
          dh_public, hB, dh_shared, hK] at h3
        injection h3 with h
        injection h with hsvA hrest
        rw [← hsvA]

/-- Witness for C9 along the concrete reference run (the client instance
already holds its key material so that both client steps apply to it). -/
theorem params_immutable_witness :
    DHClient.on_server_hello { params := DH_PARAMS, a := some 6, A := some 8, shared := none }
        { selected_group := "DH_23_5", params := DH_PARAMS } =
      .ok ({ params := DH_PARAMS, a := some 6, A := some 8, shared := none }, { A := 8 }) ∧
    DHClient.on_server_keyshare
        { params := DH_PARAMS, a := some 6, A := some 8, shared := none } { B := 19 } =
      .ok ({ params := DH_PARAMS, a := some 6, A := some 8, shared := some 2 },
        { ok := true }) ∧
    (DHServer.init DH_PARAMS).on_client_keyshare { A := 8 } =
      .ok ({ params := DH_PARAMS, b := some 15, B := some 19, shared := some 2 },
        { B := 19 }, { ok := true }) ∧
    ((DHClient.start { params := DH_PARAMS, a := some 6, A := some 8, shared := none }).1 =
       { params := DH_PARAMS, a := some 6, A := some 8, shared := none } ∧
     ((DHServer.init DH_PARAMS).on_client_hello {}).1 = DHServer.init DH_PARAMS ∧
     ({ params := DH_PARAMS, a := some 6, A := some 8, shared := none } : DHClient).params =
       ({ params := DH_PARAMS, a := some 6, A := some 8, shared := none } : DHClient).params ∧
     ({ params := DH_PARAMS, a := some 6, A := some 8, shared := some 2 } : DHClient).params =
       ({ params := DH_PARAMS, a := some 6, A := some 8, shared := none } : DHClient).params ∧
     ({ params := DH_PARAMS, b := some 15, B := some 19, shared := some 2 } : DHServer).params =
       (DHServer.init DH_PARAMS).params) :=
  ⟨rfl, rfl, rfl,
    params_immutable { params := DH_PARAMS, a := some 6, A := some 8, shared := none }
      { params := DH_PARAMS, a := some 6, A := some 8, shared := none }
      { params := DH_PARAMS, a := some 6, A := some 8, shared := some 2 }
      (DHServer.init DH_PARAMS)
      { params := DH_PARAMS, b := some 15, B := some 19, shared := some 2 }
      { selected_group := "DH_23_5", params := DH_PARAMS } { B := 19 } {} { A := 8 }
      { A := 8 } { ok := true } { B := 19 } { ok := true } rfl rfl rfl⟩

/-- C10: for every ClientHello — whatever its requested group field — the
server replies with ServerHello carrying the fixed group identifier
DH_23_5 and its own configured parameters, and its state (in particular
the unset private exponent, public value and shared secret of a fresh
server) is untouched. -/
theorem server_hello_constant (sv : DHServer) (ch : ClientHello) (params : DHParams) :
    sv.on_client_hello ch = (sv, { selected_group := "DH_23_5", params := sv.params }) ∧
    (DHServer.init params).b = none ∧ (DHServer.init params).B = none ∧
    (DHServer.init params).shared = none :=
  ⟨rfl, rfl, rfl, rfl⟩
